import Mathlib

/-!
Verification of the MultiQC (EI fork) parsing/aggregation modules:
`multiqc/modules/centrifuge/centrifuge.py`, `multiqc/modules/bcl2fastq/bcl2fastq.py`
and `multiqc/modules/kat/kat.py`, shallowly embedded in Lean 4.

Python exceptions are modelled with `Except PyErr`; Python dicts (which keep
insertion order) are modelled as association lists over `String` keys; Python
ints are `Int` and Python floats are `Rat` (every arithmetic operation the
claims touch is exact on dyadic/decimal values, so `Rat` agrees with IEEE
doubles on them).
-/

/-- Python exceptions that the embedded code can raise. -/
inductive PyErr where
  | keyError (k : String)
  | indexError
  | valueError (msg : String)
  | attributeError (attr : String)
  | typeError (msg : String)
  | zeroDivisionError
  deriving DecidableEq, Repr

/-- Python whitespace, as stripped by `str.strip()` (the characters relevant
to these report formats). -/
def pyIsSpace (c : Char) : Bool :=
  c = ' ' || c = '\t' || c = '\n' || c = '\r'

/-- Python `str.strip()`: remove leading and trailing whitespace.  (Defined
structurally over the character list so that concrete inputs evaluate inside
the kernel.) -/
def pyStrip (s : String) : String :=
  String.mk (((s.data.dropWhile pyIsSpace).reverse.dropWhile pyIsSpace).reverse)

/-- Worker for `pySplit`: splits a character list on a separator character,
keeping empty tokens, like Python `str.split(sep)` with a one-character
separator (every separator used by these modules is one character). -/
def splitChAux (c : Char) : List Char → List Char → List (List Char)
  | [], acc => [acc.reverse]
  | x :: rest, acc =>
    if x = c then acc.reverse :: splitChAux c rest []
    else splitChAux c rest (x :: acc)

/-- Python `s.split(sep)` for a one-character separator:
`''.split(sep) == ['']`, empty tokens are kept. -/
def pySplit (s : String) (c : Char) : List String :=
  (splitChAux c s.data []).map String.mk

/-- Python `s.startswith(pre)`. -/
def pyStartsWith (s pre : String) : Bool :=
  pre.data.isPrefixOf s.data

/-- Python `s.upper()` (ASCII, which is all these reports contain). -/
def pyUpper (s : String) : String :=
  String.mk (s.data.map Char.toUpper)

/-- Python `s.lower()` (ASCII). -/
def pyLower (s : String) : String :=
  String.mk (s.data.map Char.toLower)

/-- Python `s.replace(a, b)` for one-character pattern and replacement. -/
def pyReplaceCh (s : String) (a b : Char) : String :=
  String.mk (s.data.map (fun c => if c = a then b else c))

/-- Python slicing `s[n:]`. -/
def pyDropStr (s : String) (n : Nat) : String :=
  String.mk (s.data.drop n)

/-- Python dict lookup `d[k]`: raises `KeyError` when the key is absent. -/
def dGet {α : Type} (m : List (String × α)) (k : String) : Except PyErr α :=
  match m.lookup k with
  | some v => Except.ok v
  | none => Except.error (PyErr.keyError k)

/-- Python dict store `d[k] = v`: updates in place when the key exists,
otherwise appends, preserving insertion order (CPython dict semantics). -/
def dSet {α : Type} (m : List (String × α)) (k : String) (v : α) : List (String × α) :=
  if (m.lookup k).isSome then
    m.map (fun p => if p.1 = k then (k, v) else p)
  else
    m ++ [(k, v)]

/-- Interpret a list of decimal digit characters as a natural number;
`none` when the list is empty or contains a non-digit. -/
def digitsToNat? : List Char → Option Nat
  | [] => none
  | cs => cs.foldl (fun acc c => do
      let n ← acc
      if c.isDigit then some (n * 10 + (c.toNat - 48)) else none) (some 0)

/-- Python `int(s)` on an already `strip`ped string: optional sign followed by
decimal digits; anything else raises `ValueError` (modelled as `none`). -/
def pyInt? (s : String) : Option Int :=
  match s.data with
  | '-' :: rest => (digitsToNat? rest).map (fun n => -(n : Int))
  | '+' :: rest => (digitsToNat? rest).map (fun n => (n : Int))
  | cs => (digitsToNat? cs).map (fun n => (n : Int))

/-- Python `float(s)` on an already `strip`ped string: optional sign, integer
part, optional fractional part.  This covers the numeric literals the report
formats emit; other strings raise `ValueError` (modelled as `none`). -/
def pyFloat? (s : String) : Option Rat :=
  let core : List Char → Option Rat := fun cs =>
    match splitChAux '.' cs [] with
    | [w] => (digitsToNat? w).map (fun n => (n : Rat))
    | [w, f] => do
        let wn ← digitsToNat? w
        let fn ← digitsToNat? f
        some ((wn : Rat) + (fn : Rat) / ((10 : Rat) ^ f.length))
    | _ => none
  match s.data with
  | '-' :: rest => (core rest).map (fun q => -q)
  | '+' :: rest => core rest
  | cs => core cs

/-- Python `int(s)` raising `ValueError` on failure. -/
def pyIntE (s : String) : Except PyErr Int :=
  match pyInt? s with
  | some n => Except.ok n
  | none => Except.error (PyErr.valueError ("invalid literal for int: " ++ s))

/-- Python `float(s)` (which itself strips surrounding whitespace) raising
`ValueError` on failure. -/
def pyFloatE (s : String) : Except PyErr Rat :=
  match pyFloat? (pyStrip s) with
  | some q => Except.ok q
  | none => Except.error (PyErr.valueError ("could not convert string to float: " ++ s))

/-- Python list indexing `xs[i]` for non-negative `i`: raises `IndexError`
when out of range. -/
def pyIndex {α : Type} (xs : List α) (i : Nat) : Except PyErr α :=
  match xs.get? i with
  | some x => Except.ok x
  | none => Except.error PyErr.indexError

/-- Python string slicing `s[:-n]`: drops the last `n` characters, empty
result when the string is shorter (never raises). -/
def pyDropLast (s : String) (n : Nat) : String :=
  String.mk (s.data.take (s.data.length - n))

/-- Python float division `a / b`: raises `ZeroDivisionError` when `b = 0`. -/
def pyDiv (a b : Rat) : Except PyErr Rat :=
  if b = 0 then Except.error PyErr.zeroDivisionError else Except.ok (a / b)

/-! ## Centrifuge module: `multiqc/modules/centrifuge/centrifuge.py`

The `TaxRank` enum (lines 10-27).  Note two facts about the source that the
theorems below depend on:
* the classmethod is declared as `def get(cls, item, alt=cls.ROOT)`; the
  default expression `cls.ROOT` is evaluated when the class body runs, where
  the name `cls` is unbound, so importing the module raises `NameError`.  The
  embedding below grants the evidently intended default (`ROOT`) so that the
  rest of the code can be analysed at all;
* the body `cls.__members__.get(item, alt).value` returns the member's
  numeric `.value` (a Python `int`/`float`), not the member itself, while both
  call sites (`parse_taxon` line 427 and `extract_lineage` line 565)
  immediately access `.value` resp. `.name` on the returned number, which
  raises `AttributeError` for every argument. -/

/-- The `TaxRank` enum members, in declaration order (source lines 12-23). -/
inductive TaxRank where
  | ROOT | SUPERKINGDOM | KINGDOM | PHYLUM | CLASS | ORDER | FAMILY
  | GENUS | SUBGENUS | SPECIES | SUBSPECIES | NO_RANK
  deriving DecidableEq, Repr

/-- Numeric value of each `TaxRank` member (source lines 12-23). -/
def TaxRank.value : TaxRank → Rat
  | .ROOT => 0
  | .SUPERKINGDOM => 1
  | .KINGDOM => 2
  | .PHYLUM => 3
  | .CLASS => 4
  | .ORDER => 5
  | .FAMILY => 6
  | .GENUS => 7
  | .SUBGENUS => 7.5
  | .SPECIES => 8
  | .SUBSPECIES => 8.5
  | .NO_RANK => 9

/-- The `.name` attribute of each member (Python enum member name). -/
def TaxRank.pyName : TaxRank → String
  | .ROOT => "ROOT"
  | .SUPERKINGDOM => "SUPERKINGDOM"
  | .KINGDOM => "KINGDOM"
  | .PHYLUM => "PHYLUM"
  | .CLASS => "CLASS"
  | .ORDER => "ORDER"
  | .FAMILY => "FAMILY"
  | .GENUS => "GENUS"
  | .SUBGENUS => "SUBGENUS"
  | .SPECIES => "SPECIES"
  | .SUBSPECIES => "SUBSPECIES"
  | .NO_RANK => "NO_RANK"

/-- `TaxRank.__members__.get(item)`: lookup of a member by its name. -/
def TaxRank.membersGet (item : String) : Option TaxRank :=
  if item = "ROOT" then some .ROOT
  else if item = "SUPERKINGDOM" then some .SUPERKINGDOM
  else if item = "KINGDOM" then some .KINGDOM
  else if item = "PHYLUM" then some .PHYLUM
  else if item = "CLASS" then some .CLASS
  else if item = "ORDER" then some .ORDER
  else if item = "FAMILY" then some .FAMILY
  else if item = "GENUS" then some .GENUS
  else if item = "SUBGENUS" then some .SUBGENUS
  else if item = "SPECIES" then some .SPECIES
  else if item = "SUBSPECIES" then some .SUBSPECIES
  else if item = "NO_RANK" then some .NO_RANK
  else none

/-- The members of `TaxRank` in declaration order (Python `for r in TaxRank`). -/
def TaxRank.members : List TaxRank :=
  [.ROOT, .SUPERKINGDOM, .KINGDOM, .PHYLUM, .CLASS, .ORDER, .FAMILY,
   .GENUS, .SUBGENUS, .SPECIES, .SUBSPECIES, .NO_RANK]

/-- A Python runtime value, as needed to embed the dynamic attribute accesses
performed on the result of `TaxRank.get`. -/
inductive PyVal where
  | pyNum (q : Rat)
  | pyStr (s : String)
  | pyMember (r : TaxRank)
  deriving DecidableEq, Repr

/-- Python attribute access `v.attr` for the attributes the source uses:
enum members have `.value` and `.name`; numbers and strings have neither, so
accessing them raises `AttributeError` (source lines 427 and 565 do exactly
that on the number returned by `TaxRank.get`). -/
def pyAttr (v : PyVal) (attr : String) : Except PyErr PyVal :=
  match v, attr with
  | .pyMember r, "value" => Except.ok (.pyNum r.value)
  | .pyMember r, "name" => Except.ok (.pyStr r.pyName)
  | _, _ => Except.error (PyErr.attributeError attr)

/-- `TaxRank.get` (source lines 25-27): `cls.__members__.get(item, alt).value`
with the evidently intended default `alt = ROOT` (see the section comment: the
written default `cls.ROOT` makes the class body raise `NameError`).  Because
the body itself ends in `.value`, the function returns the numeric value of
the member, never the member. -/
def TaxRank.get (item : String) : PyVal :=
  .pyNum ((TaxRank.membersGet item).getD TaxRank.ROOT).value

/-- Python `str.capitalize()`-style first-letter uppercasing as written at
line 413: `name[0].capitalize() + name[1:]` where `name` is already
lowercased; raises `IndexError` on the empty string (`name[0]`). -/
def pyCapitalizeHead (s : String) : Except PyErr String :=
  match s.data with
  | [] => Except.error PyErr.indexError
  | c :: rest => Except.ok (String.mk (Char.toUpper c :: rest))

/-- `MultiqcModule.parse_taxon` with `rank=None` (source lines 409-428): the
full descriptor grammar `Name (id:NNN; rank:RRR)`.  The final statement
`TaxRank.get(...).value` accesses `.value` on the number that `TaxRank.get`
returns, so the function raises `AttributeError` whenever it gets that far.
Returns `(name, id, rank, rank_id)`. -/
def parse_taxon (taxon_str : String) : Except PyErr (String × String × String × Rat) := do
  let parts := pySplit (pyStrip taxon_str) ('(')
  let p0 ← pyIndex parts 0
  let name0 := pyLower (pyStrip (pyDropLast p0 1))
  let name ← pyCapitalizeHead name0
  let p1 ← pyIndex parts 1
  let parts2 := pySplit p1 (';')
  let id_part ← pyIndex parts2 0
  let idField ← pyIndex (pySplit id_part (':')) 1
  let id := pyStrip idField
  let rank_part ← pyIndex parts2 1
  let rankField ← pyIndex (pySplit rank_part (':')) 1
  let rank := pyStrip (pyStrip (pyDropLast rankField 1))
  let rankIdVal ← pyAttr (TaxRank.get (pyReplaceCh (pyUpper rank) (' ') ('_'))) ("value")
  match rankIdVal with
  | .pyNum q => return (name, id, rank, q)
  | _ => Except.error (PyErr.typeError ("rank id is not a number"))

/-- `MultiqcModule.parse_taxon` with an explicit `rank` argument (source
lines 409-419): name extraction as above, the id taken as `parts[1][3:-1]`,
and the rank name/value read off the supplied member (this variant does not
call `TaxRank.get`, so it does not hit the `AttributeError`). -/
def parse_taxon_fixed (taxon_str : String) (rank : TaxRank) :
    Except PyErr (String × String × String × Rat) := do
  let parts := pySplit (pyStrip taxon_str) ('(')
  let p0 ← pyIndex parts 0
  let name0 := pyLower (pyStrip (pyDropLast p0 1))
  let name ← pyCapitalizeHead name0
  let p1 ← pyIndex parts 1
  let id := pyDropLast (pyDropStr p1 3) 1
  return (name, id, pyLower rank.pyName, rank.value)

/-- The shared scanning loop of `extract_t5` / `extract_lineage` /
`extract_kingdom` (source lines 485-499, 534-548, 577-591): a forward scan
with a counter `in_section`; after a line starting with the header is seen the
next three lines are captured (stripped) as description, percentage and count
rows; a later occurrence of the header re-arms the counter, so the last match
wins.  Arguments after `content` are `in_section`, the header, and the three
accumulators. -/
def scan3 : List String → Nat → String → String → String → String →
    String × String × String
  | [], _, _, d, p, c => (d, p, c)
  | l :: rest, sec, header, d, p, c =>
    let line := pyStrip l
    let (d, p, c, sec) :=
      if sec = 1 then (line, p, c, 2)
      else if sec = 2 then (d, line, c, 3)
      else if sec = 3 then (d, p, line, 0)
      else (d, p, c, sec)
    let sec := if pyStartsWith line header then 1 else sec
    scan3 rest sec header d p c

/-- The value stored in a centrifuge top-5 table: names are strings, the
percentage columns are floats. -/
inductive T5V where
  | s (v : String)
  | f (v : Rat)
  deriving DecidableEq, Repr

/-- The module-level `mapping` dict (source lines 29-35). -/
def posMapping : List (String × String) :=
  [("0", "first"), ("1", "second"), ("2", "third"), ("3", "fourth"), ("4", "fifth")]

/-- The loop `for i in range(len(desc_parts))` of `extract_t5` (source lines
511-516): `mapping[str(i)]` raises `KeyError` past position 4, missing
`perc_parts[i]` raises `IndexError`, `float(...)` raises `ValueError`.
`n` counts the remaining iterations, `i` is the current index. -/
def t5FillAux (dp pp : List String) : Nat → Nat → List (String × T5V) →
    Except PyErr (List (String × T5V))
  | 0, _, acc => Except.ok acc
  | n + 1, i, acc => do
    let h ← pyIndex dp i
    let key ← dGet posMapping (toString i)
    let pstr ← pyIndex pp i
    let q ← pyFloatE pstr
    t5FillAux dp pp n (i + 1)
      (dSet (dSet acc (key ++ "_name") (.s (pyStrip h))) (key ++ "_count") (.f q))

/-- The padding loop `for i in range(len(desc_parts), 5)` of `extract_t5`
(source lines 518-521). -/
def t5PadAux : Nat → Nat → List (String × T5V) →
    Except PyErr (List (String × T5V))
  | 0, _, acc => Except.ok acc
  | n + 1, i, acc => do
    let key ← dGet posMapping (toString i)
    t5PadAux n (i + 1)
      (dSet (dSet acc (key ++ "_name") (.s "N/A")) (key ++ "_count") (.f 0))

/-- `MultiqcModule.extract_t5` (source lines 477-523).  `in_rank` is accepted
but unused, as in the source (its only use, line 514, is commented out).
Note `''.split('\t') == ['']`, so when the header is never seen the length-0
check at line 505 can never fire: the loop runs on the single empty column. -/
def extract_t5 (content : List String) (header : String) (in_rank : TaxRank) :
    Except PyErr (List (String × T5V)) :=
  let _ := in_rank
  let (desc_str, perc_str, count_str) := scan3 content 0 header "" "" ""
  let desc_parts := pySplit desc_str ('\t')
  let perc_parts := pySplit perc_str ('\t')
  let count_parts := pySplit count_str ('\t')
  if desc_parts.length = 0 ∨ perc_parts.length = 0 ∨ count_parts.length = 0 then
    Except.error (PyErr.valueError ("Error: Could not find lineage with header: " ++ header))
  else if desc_parts.length ≠ perc_parts.length ∨ desc_parts.length ≠ count_parts.length then
    Except.error (PyErr.valueError ("Error: Lineage with header: " ++ header ++
      "; has different number of header and value columns."))
  else do
    let filled ← t5FillAux desc_parts perc_parts desc_parts.length 0 []
    if desc_parts.length < 5 then
      t5PadAux (5 - desc_parts.length) desc_parts.length filled
    else
      Except.ok filled

/-- The loop of `extract_lineage` (source lines 560-565): each iteration
parses the column header with `parse_taxon` (which raises `AttributeError`,
see above), then would store the delta
`int(count_parts[i])` minus `int(count_parts[i-1])` under the key
`TaxRank.get(rank.upper()).name.lower()` (another `AttributeError`: `.name`
on a number). -/
def linFillAux (dp cp : List String) : Nat → Nat → List (String × Int) →
    Except PyErr (List (String × Int))
  | 0, _, acc => Except.ok acc
  | n + 1, i, acc => do
    let h ← pyIndex dp i
    let _taxon ← parse_taxon (pyStrip h)
    let curs ← pyIndex cp i
    let cur ← pyIntE (pyStrip curs)
    let v ← if i = 0 then pure cur
      else do
        let prevs ← pyIndex cp (i - 1)
        let prev ← pyIntE (pyStrip prevs)
        pure (cur - prev)
    let keyVal ← pyAttr (TaxRank.get (pyUpper _taxon.2.2.1)) ("name")
    match keyVal with
    | .pyStr key => linFillAux dp cp n (i + 1) (dSet acc (pyLower key) v)
    | _ => Except.error (PyErr.typeError ("rank key is not a string"))

/-- `MultiqcModule.extract_lineage` (source lines 526-567).  As in
`extract_t5`, a missing header leaves the three captured rows empty and
`''.split('\t') == ['']` defeats the `SectionNotFound` check at line 554, so
the loop runs on the empty column and `parse_taxon('')` raises `IndexError`;
with the section present, `parse_taxon` raises `AttributeError` instead. -/
def extract_lineage (content : List String) (header : String) :
    Except PyErr (List (String × Int)) :=
  let (desc_str, perc_str, count_str) := scan3 content 0 header "" "" ""
  let desc_parts := pySplit desc_str ('\t')
  let perc_parts := pySplit perc_str ('\t')
  let count_parts := pySplit count_str ('\t')
  if desc_parts.length = 0 ∨ perc_parts.length = 0 ∨ count_parts.length = 0 then
    Except.error (PyErr.valueError ("Error: Could not find lineage with header: " ++ header))
  else if desc_parts.length ≠ perc_parts.length ∨ desc_parts.length ≠ count_parts.length then
    Except.error (PyErr.valueError ("Error: Lineage with header: " ++ header ++
      "; has different number of header and value columns."))
  else
    linFillAux desc_parts count_parts desc_parts.length 0 []

/-- The loop of `extract_kingdom` (source lines 604-608): each column header
is parsed with the fixed-rank grammar and the count is stored under the
lowercased name. -/
def kingFillAux (dp cp : List String) : Nat → Nat → List (String × Int) →
    Except PyErr (List (String × Int))
  | 0, _, acc => Except.ok acc
  | n + 1, i, acc => do
    let h ← pyIndex dp i
    let taxon ← parse_taxon_fixed (pyStrip h) TaxRank.KINGDOM
    let cs ← pyIndex cp i
    let c ← pyIntE (pyStrip cs)
    kingFillAux dp cp n (i + 1) (dSet acc (pyLower taxon.1) c)

/-- `MultiqcModule.extract_kingdom` (source lines 570-610), header fixed to
`"Kingdom Perc"`. -/
def extract_kingdom (content : List String) : Except PyErr (List (String × Int)) :=
  let (desc_str, perc_str, count_str) := scan3 content 0 ("Kingdom Perc") "" "" ""
  let desc_parts := pySplit desc_str ('\t')
  let perc_parts := pySplit perc_str ('\t')
  let count_parts := pySplit count_str ('\t')
  if desc_parts.length = 0 ∨ perc_parts.length = 0 ∨ count_parts.length = 0 then
    Except.error (PyErr.valueError ("Error: Could not find kingdom percentages."))
  else if perc_parts.length ≠ desc_parts.length ∨ desc_parts.length ≠ count_parts.length then
    Except.error (PyErr.valueError ("Error: Kingdom percentages has different number of header and percentage columns."))
  else
    kingFillAux desc_parts count_parts desc_parts.length 0 []

/-- The delta-series expression of `extract_lineage` (source line 565):
`int(count_parts[i]) if i == 0 else int(count_parts[i]) - int(count_parts[i-1])`
written as a recursion carrying the previous cumulative value. -/
def lineageDeltasAux (prev : Int) : List Int → List Int
  | [] => []
  | c :: rest => (c - prev) :: lineageDeltasAux c rest

/-- The delta series computed from a cumulative sequence by the value
expression at source line 565. -/
def lineageDeltas : List Int → List Int
  | [] => []
  | c :: rest => c :: lineageDeltasAux c rest

/-- A value in the centrifuge per-sample table: strings (taxon labels and
rank names) and numbers (total hits, rank levels). -/
inductive CfV where
  | s (v : String)
  | i (v : Int)
  | q (v : Rat)
  deriving DecidableEq, Repr

/-- The scalar-field loop of `parse_cf_reports` (source lines 438-458):
prefix-dispatted extraction of the classified/expected/MRCA taxon lines, the
`Expected Taxon ID provided` flag and `Total hits`.  Returns the table
accumulator and the flag. -/
def cfScalarLoop : List String → List (String × CfV) → Bool →
    Except PyErr (List (String × CfV) × Bool)
  | [], acc, flag => Except.ok (acc, flag)
  | line :: rest, acc, flag => do
    if pyStartsWith line ("Classified Taxon:") then
      let t ← parse_taxon (pyStrip (pyDropStr line 18))
      let acc := dSet acc ("actual_taxon") (.s (t.1 ++ " (" ++ t.2.1 ++ ")"))
      let acc := dSet acc ("actual_taxon_rank") (.s t.2.2.1)
      let acc := dSet acc ("actual_taxon_rank_id") (.q t.2.2.2)
      cfScalarLoop rest acc flag
    else if pyStartsWith line ("Expected Taxon:") then
      let t ← parse_taxon (pyStrip (pyDropStr line 16))
      let acc := dSet acc ("expected_taxon") (.s (t.1 ++ " (" ++ t.2.1 ++ ")"))
      let acc := dSet acc ("expected_taxon_rank") (.s t.2.2.1)
      let acc := dSet acc ("expected_taxon_rank_id") (.q t.2.2.2)
      cfScalarLoop rest acc flag
    else if pyStartsWith line ("MRCA Taxon:") then
      let t ← parse_taxon (pyStrip (pyDropStr line 11))
      let acc := dSet acc ("mrca_taxon") (.s (t.1 ++ " (" ++ t.2.1 ++ ")"))
      let acc := dSet acc ("mrca_taxon_rank") (.s t.2.2.1)
      let acc := dSet acc ("mrca_taxon_rank_id") (.q t.2.2.2)
      cfScalarLoop rest acc flag
    else if pyStartsWith line ("Expected Taxon ID provided") then
      cfScalarLoop rest acc true
    else if pyStartsWith line ("Total hits") then
      let v ← pyIndex (pySplit line (':')) 1
      let n ← pyIntE (pyStrip v)
      cfScalarLoop rest (dSet acc ("total_hits") (.i n)) flag
    else
      cfScalarLoop rest acc flag

/-- The record returned by `parse_cf_reports` (source line 473): the seven
per-sample mappings. -/
structure CfRecord where
  table_data : List (String × CfV)
  cls_lineage : List (String × Int)
  els_lineage : List (String × Rat)
  kingdom : List (String × Int)
  rank : List (String × Int)
  t5_species : List (String × T5V)
  t5_class : List (String × T5V)
  deriving DecidableEq, Repr

/-- The synthesized expected-lineage series when no expected taxon was
provided (source lines 470-471): 100.0 at the first enum member, 0.0 at every
other member, keyed by the lowercased member name. -/
def defaultElsLineage : List (String × Rat) :=
  TaxRank.members.enum.map (fun p => (pyLower p.2.pyName, if p.1 = 0 then (100 : Rat) else 0))

/-- `MultiqcModule.parse_cf_reports` (source lines 432-473): scalar loop, then
the five section extractions, then the expected-lineage section (or its
synthesized default). -/
def parse_cf_reports (content : List String) : Except PyErr CfRecord := do
  let (table_data, exp_present) ← cfScalarLoop content [] false
  let cls ← extract_lineage content ("Classified Taxon\x27s Lineage")
  let kd ← extract_kingdom content
  let rd ← extract_lineage content ("Rank Perc")
  let t5s ← extract_t5 content ("Top 5 species") TaxRank.SPECIES
  let t5c ← extract_t5 content ("Top 5 class") TaxRank.CLASS
  let els ← if exp_present then
      (extract_lineage content ("Expected Taxon\x27s Lineage")).map
        (fun l => l.map (fun p => (p.1, (p.2 : Rat))))
    else
      pure defaultElsLineage
  return ⟨table_data, cls, els, kd, rd, t5s, t5c⟩

/-- The per-file loop of `MultiqcModule.__init__` (source lines 57-63): each
discovered file's content is parsed with `parse_cf_reports` and stored under
its sample name.  There is no `try`/`except` around the call, so an exception
raised for one file propagates and aborts the whole loop; files after the
failing one are never parsed. -/
def processCfFiles : List (String × List String) →
    Except PyErr (List (String × CfRecord))
  | [] => Except.ok []
  | (s_name, content) :: rest => do
    let r ← parse_cf_reports content
    let others ← processCfFiles rest
    return (s_name, r) :: others

/-! ## bcl2fastq module: `multiqc/modules/bcl2fastq/bcl2fastq.py`

The demultiplexing-report JSON is modelled by structures matching exactly the
fields the parser accesses; fields read with `.get(key, default)` are plain
lists (defaulting to `[]`), fields tested with `in` or accessed only inside a
presence check are `Option`s, and fields accessed unconditionally are
required (a `KeyError` on them is outside the shapes the claims quantify
over).  `MismatchCounts` and `Barcodes` are JSON objects, i.e. key-unique
insertion-ordered dicts, modelled as association lists. -/

/-- `safe_div` (source lines 446-449). -/
def safe_div (x y : Rat) : Rat :=
  if y = 0 then 0 else x / y

structure IndexMetricJ where
  IndexSequence : String
  MismatchCounts : List (String × Int)
  deriving DecidableEq, Repr

structure ReadMetricJ where
  YieldQ30 : Int
  QualityScoreSum : Int
  deriving DecidableEq, Repr

structure DemuxResultJ where
  SampleName : String
  NumberReads : Int
  Yield : Int
  IndexMetrics : Option (List IndexMetricJ)
  ReadMetrics : List ReadMetricJ
  deriving DecidableEq, Repr

structure UndeterminedJ where
  NumberReads : Int
  Yield : Int
  ReadMetrics : List ReadMetricJ
  deriving DecidableEq, Repr

structure ConversionResultJ where
  LaneNumber : Int
  DemuxResults : List DemuxResultJ
  Undetermined : Option UndeterminedJ
  deriving DecidableEq, Repr

structure UnknownBarcodesJ where
  Lane : Int
  Barcodes : List (String × Int)
  deriving DecidableEq, Repr

structure Bcl2FastqJson where
  RunId : String
  ConversionResults : List ConversionResultJ
  UnknownBarcodes : List UnknownBarcodesJ
  deriving DecidableEq, Repr

/-- A per-sample accumulator inside a lane bucket (source lines 144-152); the
synthetic `undetermined` sample (lines 174-181) carries no `filename` key,
hence the `Option`. -/
structure SampleAcc where
  total : Int
  total_yield : Int
  perfectIndex : Int
  barcode : String
  filename : Option String
  yieldQ30 : Int
  qscore_sum : Int
  deriving DecidableEq, Repr

/-- The sentinel entry of the per-lane unknown-barcode table (source lines
188-192). -/
structure UBVal where
  barcode : String
  count : Int
  deriving DecidableEq, Repr

/-- A lane bucket before the percentage pass (source lines 131-139). -/
structure LaneAcc where
  total : Int
  total_yield : Int
  perfectIndex : Int
  samples : List (String × SampleAcc)
  yieldQ30 : Int
  qscore_sum : Int
  unknown_barcodes : List (String × UBVal)
  deriving DecidableEq, Repr

/-- A per-sample record after the percentage pass (source lines 206-211). -/
structure SampleData where
  total : Int
  total_yield : Int
  perfectIndex : Int
  barcode : String
  filename : Option String
  yieldQ30 : Int
  qscore_sum : Int
  percent_Q30 : Rat
  percent_perfectIndex : Rat
  mean_qscore : Rat
  deriving DecidableEq, Repr

/-- A lane bucket after the percentage pass (source lines 202-205). -/
structure LaneData where
  total : Int
  total_yield : Int
  perfectIndex : Int
  samples : List (String × SampleData)
  yieldQ30 : Int
  qscore_sum : Int
  unknown_barcodes : List (String × UBVal)
  percent_Q30 : Rat
  percent_perfectIndex : Rat
  mean_qscore : Rat
  deriving DecidableEq, Repr

/-- The loop over `demuxResult["IndexMetrics"]` (source lines 159-162): every
entry overwrites the sample barcode with its `IndexSequence` (whether or not
it is empty), then adds `MismatchCounts["0"]` (a `KeyError` when absent) to
the lane's and the sample's perfect-index counters.  Returns the final
`(lane perfectIndex, sample perfectIndex, barcode)`. -/
def procIndexMetrics : List IndexMetricJ → Int → Int → String →
    Except PyErr (Int × Int × String)
  | [], lp, sp, b => Except.ok (lp, sp, b)
  | im :: rest, lp, sp, _ => do
    let b := im.IndexSequence
    let m ← dGet im.MismatchCounts ("0")
    procIndexMetrics rest (lp + m) (sp + m) b

/-- The loop over `demuxResult.get("ReadMetrics", [])` (source lines 163-167):
sums `YieldQ30` and `QualityScoreSum` into the lane and the sample. -/
def procReadMetrics : List ReadMetricJ → Int → Int → Int → Int →
    Int × Int × Int × Int
  | [], ly, lq, sy, sq => (ly, lq, sy, sq)
  | rm :: rest, ly, lq, sy, sq =>
    procReadMetrics rest (ly + rm.YieldQ30) (lq + rm.QualityScoreSum)
      (sy + rm.YieldQ30) (sq + rm.QualityScoreSum)

/-- Processing of one entry of `ConversionResults[..]["DemuxResults"]`
(source lines 140-167): the sample bucket is (re)set to zeros, the lane and
sample totals are incremented, then the index- and read-metric loops run. -/
def procDemuxResult (lane : LaneAcc) (dr : DemuxResultJ) (filename : String) :
    Except PyErr LaneAcc := do
  let s0 : SampleAcc :=
    { total := 0, total_yield := 0, perfectIndex := 0, barcode := "",
      filename := some filename, yieldQ30 := 0, qscore_sum := 0 }
  let laneTotal := lane.total + dr.NumberReads
  let laneYield := lane.total_yield + dr.Yield
  let sTotal := s0.total + dr.NumberReads
  let sYield := s0.total_yield + dr.Yield
  let (lp, sp, b) ← match dr.IndexMetrics with
    | some ims => procIndexMetrics ims lane.perfectIndex s0.perfectIndex ""
    | none => Except.ok (lane.perfectIndex, s0.perfectIndex, "")
  let (ly, lq, sy, sq) :=
    procReadMetrics dr.ReadMetrics lane.yieldQ30 lane.qscore_sum s0.yieldQ30 s0.qscore_sum
  let s1 : SampleAcc :=
    { s0 with
      total := sTotal, total_yield := sYield, perfectIndex := sp,
      barcode := b, yieldQ30 := sy, qscore_sum := sq }
  return { lane with
    total := laneTotal, total_yield := laneYield, perfectIndex := lp,
    yieldQ30 := ly, qscore_sum := lq,
    samples := dSet lane.samples dr.SampleName s1 }

/-- Processing of one `ConversionResults` entry (source lines 127-181): a
fresh lane bucket overwrites any previous bucket of the same lane (only a
debug diagnostic is logged), all demux results are folded in, and a present
`Undetermined` block is stored as a synthetic sample named `undetermined`
(with no filename). -/
def procConversionResult (run_data : List (String × LaneAcc))
    (cr : ConversionResultJ) (filename : String) :
    Except PyErr (List (String × LaneAcc)) := do
  let laneKey := "L" ++ toString cr.LaneNumber
  let lane0 : LaneAcc :=
    { total := 0, total_yield := 0, perfectIndex := 0, samples := [],
      yieldQ30 := 0, qscore_sum := 0, unknown_barcodes := [] }
  let lane ← cr.DemuxResults.foldlM (fun l dr => procDemuxResult l dr filename) lane0
  let lane :=
    match cr.Undetermined with
    | none => lane
    | some u =>
      let sums := procReadMetrics u.ReadMetrics 0 0 0 0
      let su : SampleAcc :=
        { total := u.NumberReads, total_yield := u.Yield, perfectIndex := 0,
          barcode := "", filename := none,
          yieldQ30 := sums.1, qscore_sum := sums.2.1 }
      { lane with samples := dSet lane.samples ("undetermined") su }
  return dSet run_data laneKey lane

/-- The initial value of the per-lane unknown-barcode table (source lines
187-193): five sentinel entries keyed `"1"` to `"5"`. -/
def ubInit : List (String × UBVal) :=
  [("1", ⟨"N/A", 0⟩), ("2", ⟨"N/A", 0⟩), ("3", ⟨"N/A", 0⟩),
   ("4", ⟨"N/A", 0⟩), ("5", ⟨"N/A", 0⟩)]

/-- The `enumerate` loop over the barcodes (source lines 194-198), with its
`break` once `min(len, 5)` entries have been written.  JSON objects are
key-unique, so `lane_unknown_barcodes[barcode]` is the value paired with the
key being enumerated. -/
def ubLoop : List (String × Int) → Nat → Nat → List (String × UBVal) →
    List (String × UBVal)
  | [], _, _, acc => acc
  | (b, cnt) :: rest, nb, i, acc =>
    if i = nb then acc
    else ubLoop rest nb (i + 1) (dSet acc (toString (i + 1)) ⟨b, cnt⟩)

/-- The unknown-barcode table built for one `UnknownBarcodes` entry (source
lines 185-198): sentinel-initialised, then filled from the source order. -/
def ubFill (bs : List (String × Int)) : List (String × UBVal) :=
  ubLoop bs (min bs.length 5) 0 ubInit

/-- The loop over `content.get("UnknownBarcodes", [])` (source lines 183-198):
each entry replaces the `unknown_barcodes` table of the lane it names; a lane
never seen in `ConversionResults` raises `KeyError` at `run_data[lane]`. -/
def procUnknownBarcodes (run_data : List (String × LaneAcc)) :
    List UnknownBarcodesJ → Except PyErr (List (String × LaneAcc))
  | [] => Except.ok run_data
  | ub :: rest => do
    let laneKey := "L" ++ toString ub.Lane
    let lane ← dGet run_data laneKey
    procUnknownBarcodes (dSet run_data laneKey { lane with unknown_barcodes := ubFill ub.Barcodes }) rest

/-- The per-sample percentage pass (source lines 206-211); these `safe_div`
calls pass both arguments. -/
def finishSample (s : SampleAcc) : SampleData :=
  { total := s.total, total_yield := s.total_yield, perfectIndex := s.perfectIndex,
    barcode := s.barcode, filename := s.filename,
    yieldQ30 := s.yieldQ30, qscore_sum := s.qscore_sum,
    percent_Q30 := safe_div (s.yieldQ30 : Rat) (s.total_yield : Rat) * 100,
    percent_perfectIndex := safe_div (s.perfectIndex : Rat) (s.total : Rat) * 100,
    mean_qscore := safe_div (s.qscore_sum : Rat) (s.total_yield : Rat) }

/-- The per-lane percentage pass (source lines 202-211). -/
def finishLane (l : LaneAcc) : LaneData :=
  { total := l.total, total_yield := l.total_yield, perfectIndex := l.perfectIndex,
    samples := l.samples.map (fun p => (p.1, finishSample p.2)),
    yieldQ30 := l.yieldQ30, qscore_sum := l.qscore_sum,
    unknown_barcodes := l.unknown_barcodes,
    percent_Q30 := safe_div (l.yieldQ30 : Rat) (l.total_yield : Rat) * 100,
    percent_perfectIndex := safe_div (l.perfectIndex : Rat) (l.total : Rat) * 100,
    mean_qscore := safe_div (l.qscore_sum : Rat) (l.total_yield : Rat) }

/-- `MultiqcModule.parse_file_as_json` (source lines 117-211) for one JSON
document starting from empty gathered data (the configuration every claim
exercises; in the source `self.bcl2fastq_data` is threaded across files of
the same run).  Produces the finished `runId -> lane -> LaneData` mapping. -/
def parse_file_as_json (content : Bcl2FastqJson) (filename : String) :
    Except PyErr (List (String × List (String × LaneData))) := do
  let run_data ← content.ConversionResults.foldlM
    (fun rd cr => procConversionResult rd cr filename) []
  let run_data ← procUnknownBarcodes run_data content.UnknownBarcodes
  return [(content.RunId, run_data.map (fun p => (p.1, finishLane p.2)))]

/-- `prepend_runid` (source lines 432-433). -/
def prepend_runid (runId rest : String) : String :=
  runId ++ " - " ++ rest

/-- One row of `bcl2fastq_bylane` (source lines 217-227); `undetermined` is
`samples.get("undetermined", {}).get("total", "NA")`, so `none` stands for
the string `"NA"`. -/
structure ByLaneRow where
  total : Int
  total_yield : Int
  perfectIndex : Int
  undetermined : Option Int
  yieldQ30 : Int
  qscore_sum : Int
  percent_Q30 : Rat
  percent_perfectIndex : Rat
  mean_qscore : Rat
  deriving DecidableEq, Repr

/-- One row of `bcl2fastq_undetermined` (source lines 228-239). -/
structure UndetRow where
  first_barcode : String
  first_count : Int
  second_barcode : String
  second_count : Int
  third_barcode : String
  third_count : Int
  fourth_barcode : String
  fourth_count : Int
  fifth_barcode : String
  fifth_count : Int
  deriving DecidableEq, Repr

/-- One accumulating row of `bcl2fastq_bysample` (source lines 242-249).  The
three percentage fields are `Option`s because the statements that would set
them (lines 259-261) call `safe_div` with a single argument and therefore
raise `TypeError` before any of them is ever assigned. -/
structure BySampleRow where
  total : Int
  total_yield : Int
  perfectIndex : Int
  yieldQ30 : Int
  qscore_sum : Int
  barcode : String
  percent_Q30 : Option Rat
  percent_perfectIndex : Option Rat
  mean_qscore : Option Rat
  deriving DecidableEq, Repr

/-- The five mappings `split_data_by_lane_and_sample` fills (source lines
24-28). -/
structure SplitState where
  bylane : List (String × ByLaneRow)
  undetermined : List (String × UndetRow)
  bysample : List (String × BySampleRow)
  bysample_lane : List (String × List (String × Int))
  source_files : List (String × List String)
  deriving DecidableEq, Repr

/-- The initial (empty) `SplitState`. -/
def SplitState.empty : SplitState :=
  { bylane := [], undetermined := [], bysample := [], bysample_lane := [],
    source_files := [] }

/-- The `bylane` row built for one lane (source lines 217-227). -/
def mkByLaneRow (ld : LaneData) : ByLaneRow :=
  { total := ld.total, total_yield := ld.total_yield,
    perfectIndex := ld.perfectIndex,
    undetermined := (ld.samples.lookup ("undetermined")).map (fun s => s.total),
    yieldQ30 := ld.yieldQ30, qscore_sum := ld.qscore_sum,
    percent_Q30 := ld.percent_Q30,
    percent_perfectIndex := ld.percent_perfectIndex,
    mean_qscore := ld.mean_qscore }

/-- The `bcl2fastq_undetermined` row for one lane (source lines 228-239):
six dict lookups on the keys `"1"` to `"5"`; when the lane has no
`UnknownBarcodes` entry its `unknown_barcodes` dict is still empty and the
first lookup raises `KeyError("1")`. -/
def mkUndetRow (ub : List (String × UBVal)) : Except PyErr UndetRow := do
  let u1 ← dGet ub ("1")
  let u2 ← dGet ub ("2")
  let u3 ← dGet ub ("3")
  let u4 ← dGet ub ("4")
  let u5 ← dGet ub ("5")
  return { first_barcode := u1.barcode, first_count := u1.count,
           second_barcode := u2.barcode, second_count := u2.count,
           third_barcode := u3.barcode, third_count := u3.count,
           fourth_barcode := u4.barcode, fourth_count := u4.count,
           fifth_barcode := u5.barcode, fifth_count := u5.count }

/-- The empty `bysample` accumulator (source lines 242-249). -/
def emptyBySampleRow : BySampleRow :=
  { total := 0, total_yield := 0, perfectIndex := 0, yieldQ30 := 0,
    qscore_sum := 0, barcode := "",
    percent_Q30 := none, percent_perfectIndex := none, mean_qscore := none }

/-- Processing of one sample inside `split_data_by_lane_and_sample` (source
lines 240-265).  The running sums and the barcode (lines 252-258) are written
into the state first; then line 259 evaluates its argument
`float(yieldQ30) / float(total_yield)` (a `ZeroDivisionError` when the yield
is zero) and calls `safe_div` with that single argument, which raises
`TypeError: safe_div() missing 1 required positional argument` — so lines
260-265 (the remaining two percentages and the source-file bookkeeping) are
unreachable.  The partial state is kept, as the real dicts are mutated in
place. -/
def splitSample (lane : String) (sampleName : String) (sd : SampleData)
    (st : SplitState) : SplitState × Option PyErr :=
  let st :=
    if (st.bysample.lookup sampleName).isSome then st
    else { st with bysample := dSet st.bysample sampleName emptyBySampleRow }
  let st :=
    if (st.bysample_lane.lookup sampleName).isSome then st
    else { st with bysample_lane := dSet st.bysample_lane sampleName [] }
  let laneCounts := (st.bysample_lane.lookup sampleName).getD []
  let st := { st with
    bysample_lane := dSet st.bysample_lane sampleName (dSet laneCounts lane sd.total) }
  let cur := (st.bysample.lookup sampleName).getD emptyBySampleRow
  let cur := { cur with
    total := cur.total + sd.total,
    total_yield := cur.total_yield + sd.total_yield,
    perfectIndex := cur.perfectIndex + sd.perfectIndex,
    yieldQ30 := cur.yieldQ30 + sd.yieldQ30,
    qscore_sum := cur.qscore_sum + sd.qscore_sum,
    barcode := sd.barcode }
  let st := { st with bysample := dSet st.bysample sampleName cur }
  match pyDiv (cur.yieldQ30 : Rat) (cur.total_yield : Rat) with
  | Except.error e => (st, some e)
  | Except.ok _ =>
    (st, some (PyErr.typeError ("safe_div() missing 1 required positional argument: y")))

/-- The loop over a lane's samples (source lines 240-265), stopping at the
first raised exception. -/
def splitSamples (lane : String) : List (String × SampleData) → SplitState →
    SplitState × Option PyErr
  | [], st => (st, none)
  | (name, sd) :: rest, st =>
    match splitSample lane name sd st with
    | (st, some e) => (st, some e)
    | (st, none) => splitSamples lane rest st

/-- Processing of one lane inside `split_data_by_lane_and_sample` (source
lines 215-265): the `bylane` row is stored, then the undetermined-barcode row
(which raises `KeyError("1")` when the lane's `unknown_barcodes` dict is
empty), then the samples. -/
def splitLane (runId lane : String) (ld : LaneData) (st : SplitState) :
    SplitState × Option PyErr :=
  let uniq := prepend_runid runId lane
  let st := { st with bylane := dSet st.bylane uniq (mkByLaneRow ld) }
  match mkUndetRow ld.unknown_barcodes with
  | Except.error e => (st, some e)
  | Except.ok row =>
    let st := { st with undetermined := dSet st.undetermined uniq row }
    splitSamples lane ld.samples st

/-- The loop over one run's lanes (source line 215). -/
def splitLanes (runId : String) : List (String × LaneData) → SplitState →
    SplitState × Option PyErr
  | [], st => (st, none)
  | (lane, ld) :: rest, st =>
    match splitLane runId lane ld st with
    | (st, some e) => (st, some e)
    | (st, none) => splitLanes runId rest st

/-- The loop over runs (source line 214), stopping at the first raised
exception. -/
def splitRuns : List (String × List (String × LaneData)) → SplitState →
    SplitState × Option PyErr
  | [], st => (st, none)
  | (runId, lanes) :: rest, st =>
    match splitLanes runId lanes st with
    | (st, some e) => (st, some e)
    | (st, none) => splitRuns rest st

/-- `MultiqcModule.split_data_by_lane_and_sample` (source lines 213-265) over
the gathered data, returning the final state together with the exception that
aborted it, if any. -/
def split_data_by_lane_and_sample
    (data : List (String × List (String × LaneData))) : SplitState × Option PyErr :=
  splitRuns data SplitState.empty

/-! ## KAT module: `multiqc/modules/kat/kat.py` -/

/-- The record built by `parse_kat_report` (source lines 83-99): every field
is only set when its section's trigger line occurs. -/
structure KatData where
  kmer_peaks : Option Int := none
  mean_kmer_freq : Option Int := none
  est_genome_size : Option Int := none
  gc_peaks : Option Int := none
  deriving DecidableEq, Repr

/-- Python `int(...)` truncation toward zero of a float value. -/
def pyTruncInt (q : Rat) : Int :=
  if 0 ≤ q then q.floor else q.ceil

/-- The three trigger headers of `parse_kat_report`. -/
def katKmerTrigger : String := "K-mer frequency spectra statistics"

def katGenomeTrigger : String := "Estimated genome size"

def katGcTrigger : String := "GC distribution statistics"

/-- The body of one iteration of the `while` loop of `parse_kat_report`
(source lines 87-96) given the stripped current line: returns the updated
record and the extra index advance (`7`, `0` or `4`; the loop adds 1 after).
The source writes three separate `if`s, but no trigger is a prefix of
another, so at most one can fire per iteration and an `if`/`else if` chain is
equivalent. -/
def katStep (content : List String) (i : Nat) (line : String) (acc : KatData) :
    Except PyErr (KatData × Nat) := do
  if pyStartsWith line katKmerTrigger then
    let s3 ← pyIndex content (i + 3)
    let v3 ← pyIndex (pySplit s3 (':')) 1
    let k ← pyIntE (pyStrip v3)
    let s6 ← pyIndex content (i + 6)
    let v6 ← pyIndex (pySplit s6 (':')) 1
    let m ← pyIntE (pyDropLast (pyStrip v6) 1)
    return ({ acc with kmer_peaks := some k, mean_kmer_freq := some m }, 7)
  else if pyStartsWith line katGenomeTrigger then
    let s0 ← pyIndex content i
    let v0 ← pyIndex (pySplit s0 (':')) 1
    let q ← pyFloatE (pyDropLast (pyStrip v0) 4)
    return ({ acc with est_genome_size := some (pyTruncInt (q * 1000000)) }, 0)
  else if pyStartsWith line katGcTrigger then
    let s3 ← pyIndex content (i + 3)
    let v3 ← pyIndex (pySplit s3 (':')) 1
    let g ← pyIntE (pyStrip v3)
    return ({ acc with gc_peaks := some g }, 4)
  else
    return (acc, 0)

/-- The `while i < len(content)` loop of `parse_kat_report` (source lines
86-97), written with structural recursion on a fuel counter so that concrete
runs evaluate inside the kernel.  The loop continues while `content[i]`
exists; every iteration consumes one unit of fuel and advances `i` by at
least one, so `content.length` units of fuel (as supplied by
`parse_kat_report`) always suffice and the zero-fuel clause is unreachable
from there. -/
def katLoop (content : List String) : Nat → Nat → KatData → Except PyErr KatData
  | 0, _, acc => Except.ok acc
  | fuel + 1, i, acc =>
    match content.get? i with
    | none => Except.ok acc
    | some l =>
      match katStep content i (pyStrip l) acc with
      | Except.error e => Except.error e
      | Except.ok (acc, d) => katLoop content fuel (i + d + 1) acc

/-- `MultiqcModule.parse_kat_report` (source lines 83-99). -/
def parse_kat_report (content : List String) : Except PyErr KatData :=
  katLoop content content.length 0 {}

/-! ## Claim theorems -/

/-- Helper for claim C9: when no line of the report (stripped) starts with
any of the three trigger headers, the `while` loop just advances over every
line and returns its accumulator unchanged. -/
theorem katLoop_all_skip (content : List String)
    (hc : ∀ l ∈ content, pyStartsWith (pyStrip l) katKmerTrigger = false ∧
      pyStartsWith (pyStrip l) katGenomeTrigger = false ∧
      pyStartsWith (pyStrip l) katGcTrigger = false) :
    ∀ fuel i acc, katLoop content fuel i acc = Except.ok acc := by
  intro fuel
  induction fuel with
  | zero => intro i acc; rfl
  | succ n ih =>
    intro i acc
    rw [katLoop]
    cases hg : content.get? i with
    | none => rfl
    | some l =>
      have hmem := hc l (List.get?_mem hg)
      simp only [katStep, hmem.1, hmem.2.1, hmem.2.2]
      simp only [Bool.false_eq_true, if_false]
      exact ih (i + 0 + 1) acc

/-- Counterexample to claim C9.  The claim quantifies over every line
sequence in which one or more trigger headers never occur and asserts the
parse completes without raising; but on `["Estimated genome size"]` — where
the k-mer and GC triggers indeed never occur — the genome-size branch fires
on a line with no `:` and `parse_kat_report` raises `IndexError` instead of
returning a partial record. -/
theorem c9_absent_trigger_can_still_raise :
    parse_kat_report ["Estimated genome size"] = Except.error PyErr.indexError ∧
    pyStartsWith (pyStrip ("Estimated genome size")) katKmerTrigger = false ∧
    pyStartsWith (pyStrip ("Estimated genome size")) katGcTrigger = false := by
  refine ⟨?_, ?_, ?_⟩ <;> rfl

/-- Claim C9 (corrected).  What does hold: absence of triggers is by itself
never an error — when no trigger occurs at all the parse returns the record
with every field unset — and a present, well-formed section sets exactly its
own fields, leaving the missing sections' fields unset (here a GC section:
`gc_peaks` is set, the k-mer and genome-size fields stay `none`).  The
original claim fails only when a section whose trigger does occur is
malformed at its fixed line offsets. -/
theorem c9_amended_absent_sections_unset :
    (∀ content : List String,
      (∀ l ∈ content, pyStartsWith (pyStrip l) katKmerTrigger = false ∧
        pyStartsWith (pyStrip l) katGenomeTrigger = false ∧
        pyStartsWith (pyStrip l) katGcTrigger = false) →
      parse_kat_report content = Except.ok {}) ∧
    parse_kat_report ["GC distribution statistics", "a", "b", " # peaks: 2"] =
      Except.ok { gc_peaks := some 2 } := by
  constructor
  · intro content hc
    exact katLoop_all_skip content hc content.length 0 {}
  · rfl

/-- Witness for C9's amended theorem at a concrete trigger-free report. -/
theorem c9_amended_absent_sections_unset_witness :
    (∀ l ∈ ["hello", "world"], pyStartsWith (pyStrip l) katKmerTrigger = false ∧
      pyStartsWith (pyStrip l) katGenomeTrigger = false ∧
      pyStartsWith (pyStrip l) katGcTrigger = false) ∧
    parse_kat_report ["hello", "world"] = Except.ok {} :=
  ⟨by decide, c9_amended_absent_sections_unset.1 ["hello", "world"] (by decide)⟩

/-- A `bind` of a success value in the `Except` monad reduces to the
continuation; used to step the embedded monadic loops. -/
theorem except_bind_ok {α β : Type} (a : α) (f : α → Except PyErr β) :
    (Except.ok a >>= f) = f a := rfl

/-- The spec's description for the sample barcode (claim C7), written from
the spec's words for comparison with the code: the first non-empty
`IndexSequence` among the demux result's `IndexMetrics`. -/
def specFirstNonEmptyIndexSequence (ims : List IndexMetricJ) : Option String :=
  (ims.find? (fun im => decide (im.IndexSequence ≠ ""))).map (fun im => im.IndexSequence)

/-- Two index metrics: the first has the non-empty sequence `AAA`, the second
an empty one (claim C7). -/
def c7metrics : List IndexMetricJ :=
  [{ IndexSequence := "AAA", MismatchCounts := [("0", 1)] },
   { IndexSequence := "", MismatchCounts := [("0", 2)] }]

/-- A one-run, one-lane, one-sample demux report whose sample carries
`c7metrics`. -/
def c7json : Bcl2FastqJson :=
  { RunId := "R",
    ConversionResults := [
      { LaneNumber := 1,
        DemuxResults := [
          { SampleName := "S1", NumberReads := 5, Yield := 50,
            IndexMetrics := some c7metrics,
            ReadMetrics := [] }],
        Undetermined := none }],
    UnknownBarcodes := [] }

/-- The barcode recorded for one sample of one lane of one run after
`parse_file_as_json`. -/
def parsedSampleBarcode (j : Bcl2FastqJson) (filename run lane samp : String) :
    Option String :=
  match parse_file_as_json j filename with
  | Except.error _ => none
  | Except.ok m =>
    ((m.lookup run).bind (fun lanes => lanes.lookup lane)).bind
      (fun ld => (ld.samples.lookup samp).map (fun s => s.barcode))

/-- Counterexample to claim C7.  For the sample with index metrics
`[AAA, ""]` the code records the barcode `""` — every iteration of the loop
at source line 160 overwrites the barcode, so the last `IndexSequence` wins —
while the first non-empty index sequence is `"AAA"`. -/
theorem c7_barcode_is_not_first_nonempty :
    parsedSampleBarcode c7json "f" "R" "L1" "S1" = some "" ∧
    specFirstNonEmptyIndexSequence c7metrics = some "AAA" := ⟨rfl, rfl⟩

/-- Claim C7 (corrected).  What does hold: whenever the index-metric loop
completes, the barcode recorded for the sample is the `IndexSequence` of the
*last* entry of `IndexMetrics` (empty or not), not the first non-empty one. -/
theorem c7_amended_barcode_is_last (ims : List IndexMetricJ) (lp sp : Int)
    (b0 : String) (out : Int × Int × String) (hne : ims ≠ [])
    (h : procIndexMetrics ims lp sp b0 = Except.ok out) :
    ∃ im, ims.getLast? = some im ∧ out.2.2 = im.IndexSequence := by
  induction ims generalizing lp sp b0 with
  | nil => exact absurd rfl hne
  | cons im rest ih =>
    rw [procIndexMetrics] at h
    cases hm : dGet im.MismatchCounts ("0") with
    | error e =>
      rw [hm] at h
      exact Except.noConfusion h
    | ok m =>
      rw [hm] at h
      rw [except_bind_ok] at h
      cases rest with
      | nil =>
        rw [procIndexMetrics] at h
        obtain rfl : (lp + m, sp + m, im.IndexSequence) = out := Except.ok.inj h
        exact ⟨im, rfl, rfl⟩
      | cons im2 rest2 =>
        obtain ⟨im', hl, hb⟩ := ih (lp + m) (sp + m) im.IndexSequence (by simp) h
        exact ⟨im', by simpa using hl, hb⟩

/-- Witness for C7's amended theorem at the concrete metrics `c7metrics`. -/
theorem c7_amended_barcode_is_last_witness :
    c7metrics ≠ [] ∧ procIndexMetrics c7metrics 0 0 "" = Except.ok (3, 3, "") ∧
    (∃ im, c7metrics.getLast? = some im ∧
      ((3, 3, "") : Int × Int × String).2.2 = im.IndexSequence) :=
  ⟨by decide, by rfl, c7_amended_barcode_is_last c7metrics 0 0 "" (3, 3, "") (by decide) (by rfl)⟩

/-- Helper for claim C8: `extract_t5` on a section whose three captured rows
split into exactly three columns (with parseable percentage entries) returns
the ten-entry record with positions four and five holding the sentinel. -/
theorem extract_t5_three_columns (content : List String) (header : String)
    (rank : TaxRank) (d p c d1 d2 d3 p1 p2 p3 cc1 cc2 cc3 : String)
    (q1 q2 q3 : Rat)
    (hscan : scan3 content 0 header "" "" "" = (d, p, c))
    (hd : pySplit d '\t' = [d1, d2, d3])
    (hp : pySplit p '\t' = [p1, p2, p3])
    (hc : pySplit c '\t' = [cc1, cc2, cc3])
    (hq1 : pyFloatE p1 = Except.ok q1)
    (hq2 : pyFloatE p2 = Except.ok q2)
    (hq3 : pyFloatE p3 = Except.ok q3) :
    extract_t5 content header rank = Except.ok
      [("first_name", T5V.s (pyStrip d1)), ("first_count", T5V.f q1),
       ("second_name", T5V.s (pyStrip d2)), ("second_count", T5V.f q2),
       ("third_name", T5V.s (pyStrip d3)), ("third_count", T5V.f q3),
       ("fourth_name", T5V.s "N/A"), ("fourth_count", T5V.f 0),
       ("fifth_name", T5V.s "N/A"), ("fifth_count", T5V.f 0)] := by
  have hfill : t5FillAux [d1, d2, d3] [p1, p2, p3] 3 0 [] = Except.ok
      [("first_name", T5V.s (pyStrip d1)), ("first_count", T5V.f q1),
       ("second_name", T5V.s (pyStrip d2)), ("second_count", T5V.f q2),
       ("third_name", T5V.s (pyStrip d3)), ("third_count", T5V.f q3)] := by
    calc t5FillAux [d1, d2, d3] [p1, p2, p3] 3 0 []
        = pyFloatE p1 >>= (fun q => t5FillAux [d1, d2, d3] [p1, p2, p3] 2 1
            [("first_name", T5V.s (pyStrip d1)), ("first_count", T5V.f q)]) := rfl
      _ = t5FillAux [d1, d2, d3] [p1, p2, p3] 2 1
            [("first_name", T5V.s (pyStrip d1)), ("first_count", T5V.f q1)] := by
            rw [hq1]; rfl
      _ = pyFloatE p2 >>= (fun q => t5FillAux [d1, d2, d3] [p1, p2, p3] 1 2
            [("first_name", T5V.s (pyStrip d1)), ("first_count", T5V.f q1),
             ("second_name", T5V.s (pyStrip d2)), ("second_count", T5V.f q)]) := rfl
      _ = t5FillAux [d1, d2, d3] [p1, p2, p3] 1 2
            [("first_name", T5V.s (pyStrip d1)), ("first_count", T5V.f q1),
             ("second_name", T5V.s (pyStrip d2)), ("second_count", T5V.f q2)] := by
            rw [hq2]; rfl
      _ = pyFloatE p3 >>= (fun q => t5FillAux [d1, d2, d3] [p1, p2, p3] 0 3
            [("first_name", T5V.s (pyStrip d1)), ("first_count", T5V.f q1),
             ("second_name", T5V.s (pyStrip d2)), ("second_count", T5V.f q2),
             ("third_name", T5V.s (pyStrip d3)), ("third_count", T5V.f q)]) := rfl
      _ = Except.ok
            [("first_name", T5V.s (pyStrip d1)), ("first_count", T5V.f q1),
             ("second_name", T5V.s (pyStrip d2)), ("second_count", T5V.f q2),
             ("third_name", T5V.s (pyStrip d3)), ("third_count", T5V.f q3)] := by
            rw [hq3]; rfl
  have key : extract_t5 content header rank =
      t5FillAux [d1, d2, d3] [p1, p2, p3] 3 0 [] >>= (fun filled =>
        t5PadAux 2 3 filled) := by
    simp only [extract_t5, hscan, hd, hp, hc]
    rfl
  rw [key, hfill]
  rfl

/-- Helper for claim C8: the unknown-barcode table built from three supplied
barcodes keeps five positions, the last two holding the sentinel. -/
theorem ubFill_pads_three (e1 e2 e3 : String × Int) :
    ubFill [e1, e2, e3] =
      [("1", ⟨e1.1, e1.2⟩), ("2", ⟨e2.1, e2.2⟩), ("3", ⟨e3.1, e3.2⟩),
       ("4", ⟨"N/A", 0⟩), ("5", ⟨"N/A", 0⟩)] := by
  obtain ⟨b1, n1⟩ := e1
  obtain ⟨b2, n2⟩ := e2
  obtain ⟨b3, n3⟩ := e3
  rfl

/-- Claim C8 (confirmed).  A top-5 block supplied with only three data
columns yields exactly five positions, the two positions past the supplied
ones holding the sentinel: for the centrifuge top-5 tables (`extract_t5`,
universally over the column contents), and for the bcl2fastq per-lane
unknown-barcode list (`ubFill`, universally over the three entries). -/
theorem c8_top5_padding :
    (∀ (content : List String) (header : String) (rank : TaxRank)
       (d p c d1 d2 d3 p1 p2 p3 cc1 cc2 cc3 : String) (q1 q2 q3 : Rat),
      scan3 content 0 header "" "" "" = (d, p, c) →
      pySplit d '\t' = [d1, d2, d3] →
      pySplit p '\t' = [p1, p2, p3] →
      pySplit c '\t' = [cc1, cc2, cc3] →
      pyFloatE p1 = Except.ok q1 →
      pyFloatE p2 = Except.ok q2 →
      pyFloatE p3 = Except.ok q3 →
      extract_t5 content header rank = Except.ok
        [("first_name", T5V.s (pyStrip d1)), ("first_count", T5V.f q1),
         ("second_name", T5V.s (pyStrip d2)), ("second_count", T5V.f q2),
         ("third_name", T5V.s (pyStrip d3)), ("third_count", T5V.f q3),
         ("fourth_name", T5V.s "N/A"), ("fourth_count", T5V.f 0),
         ("fifth_name", T5V.s "N/A"), ("fifth_count", T5V.f 0)]) ∧
    (∀ e1 e2 e3 : String × Int,
      ubFill [e1, e2, e3] =
        [("1", ⟨e1.1, e1.2⟩), ("2", ⟨e2.1, e2.2⟩), ("3", ⟨e3.1, e3.2⟩),
         ("4", ⟨"N/A", 0⟩), ("5", ⟨"N/A", 0⟩)]) :=
  ⟨fun content header rank d p c d1 d2 d3 p1 p2 p3 cc1 cc2 cc3 q1 q2 q3
      hscan hd hp hc hq1 hq2 hq3 =>
    extract_t5_three_columns content header rank d p c d1 d2 d3 p1 p2 p3
      cc1 cc2 cc3 q1 q2 q3 hscan hd hp hc hq1 hq2 hq3,
   ubFill_pads_three⟩

/-- A concrete top-5 species section with three data columns (claim C8). -/
def c8content : List String :=
  ["Top 5 species", "A (id:1)\tB (id:2)\tC (id:3)", "45\t30\t10", "91\t60\t20"]

/-- Witness for C8 at a concrete three-column section and three concrete
unknown barcodes. -/
theorem c8_top5_padding_witness :
    scan3 c8content 0 ("Top 5 species") "" "" "" =
      ("A (id:1)\tB (id:2)\tC (id:3)", "45\t30\t10", "91\t60\t20") ∧
    extract_t5 c8content ("Top 5 species") TaxRank.SPECIES = Except.ok
      [("first_name", T5V.s (pyStrip ("A (id:1)"))), ("first_count", T5V.f ((45 : Nat) : Rat)),
       ("second_name", T5V.s (pyStrip ("B (id:2)"))), ("second_count", T5V.f ((30 : Nat) : Rat)),
       ("third_name", T5V.s (pyStrip ("C (id:3)"))), ("third_count", T5V.f ((10 : Nat) : Rat)),
       ("fourth_name", T5V.s "N/A"), ("fourth_count", T5V.f 0),
       ("fifth_name", T5V.s "N/A"), ("fifth_count", T5V.f 0)] ∧
    ubFill [("AACC", 7), ("GGTT", 5), ("TTAA", 2)] =
      [("1", ⟨"AACC", 7⟩), ("2", ⟨"GGTT", 5⟩), ("3", ⟨"TTAA", 2⟩),
       ("4", ⟨"N/A", 0⟩), ("5", ⟨"N/A", 0⟩)] :=
  ⟨rfl,
   c8_top5_padding.1 c8content ("Top 5 species") TaxRank.SPECIES
     ("A (id:1)\tB (id:2)\tC (id:3)") ("45\t30\t10") ("91\t60\t20")
     ("A (id:1)") ("B (id:2)") ("C (id:3)") ("45") ("30") ("10") ("91") ("60") ("20")
     ((45 : Nat) : Rat) ((30 : Nat) : Rat) ((10 : Nat) : Rat)
     rfl rfl rfl rfl rfl rfl rfl,
   c8_top5_padding.2 ("AACC", 7) ("GGTT", 5) ("TTAA", 2)⟩

/-- The demux JSON of claim C2: run `RUN1`, one lane `1` with one sample `S1`
(`NumberReads=100`, `Yield=1000`, one index metric with
`MismatchCounts["0"]=90`, one read metric with `YieldQ30=800`,
`QualityScoreSum=3000`), and no `UnknownBarcodes` entry. -/
def c2json : Bcl2FastqJson :=
  { RunId := "RUN1",
    ConversionResults := [
      { LaneNumber := 1,
        DemuxResults := [
          { SampleName := "S1", NumberReads := 100, Yield := 1000,
            IndexMetrics := some [{ IndexSequence := "AAA", MismatchCounts := [("0", 90)] }],
            ReadMetrics := [{ YieldQ30 := 800, QualityScoreSum := 3000 }] }],
        Undetermined := none }],
    UnknownBarcodes := [] }

/-- The same document with an (empty) `UnknownBarcodes` entry for lane 1. -/
def c2jsonUB : Bcl2FastqJson :=
  { c2json with UnknownBarcodes := [{ Lane := 1, Barcodes := [] }] }

/-- Claim C2 (code bug).  The parse side does compute the claimed values
(`bylane` total 100, perfect-index 90%, Q30 80%), but the fold never
completes without raising: on the claim's exact input it raises
`KeyError("1")` while building the per-lane undetermined view (the input has
no `UnknownBarcodes` entry, so the lane's `unknown_barcodes` dict stays
empty) and `bysample` is never populated; and even with an `UnknownBarcodes`
entry added, the fold raises `TypeError` at the `bysample` percentage lines,
which call `safe_div` with the single argument `x / y` (source lines
259-261) — `bysample["S1"].total == 100` is written into the dict just
before that, but the fold still raises. -/
theorem c2_end_to_end_fold_raises :
    (∃ st : SplitState,
      (parse_file_as_json c2json "f").map split_data_by_lane_and_sample =
        Except.ok (st, some (PyErr.keyError "1")) ∧
      (∃ r, st.bylane.lookup (prepend_runid "RUN1" "L1") = some r ∧
        r.total = 100 ∧ r.percent_perfectIndex = 90 ∧ r.percent_Q30 = 80) ∧
      st.bysample = []) ∧
    (∃ st : SplitState,
      (parse_file_as_json c2jsonUB "f").map split_data_by_lane_and_sample =
        Except.ok (st, some (PyErr.typeError ("safe_div() missing 1 required positional argument: y"))) ∧
      (∃ r, st.bysample.lookup ("S1") = some r ∧
        r.total = 100 ∧ r.percent_Q30 = none)) := by
  constructor
  · refine ⟨_, rfl, ⟨_, rfl, ?_, ?_, ?_⟩, rfl⟩
    · rfl
    · show safe_div ((0 + 90 : Int) : Rat) ((0 + 100 : Int) : Rat) * 100 = 90
      norm_num [safe_div]
    · show safe_div ((0 + 800 : Int) : Rat) ((0 + 1000 : Int) : Rat) * 100 = 80
      norm_num [safe_div]
  · refine ⟨_, rfl, ⟨_, rfl, ?_, ?_⟩⟩
    · rfl
    · rfl

/-- The demux JSON of claim C10's counterexample: lane 1 has an
`UnknownBarcodes` entry and a sample, lane 2 has no `UnknownBarcodes`
entry. -/
def c10json : Bcl2FastqJson :=
  { RunId := "R",
    ConversionResults := [
      { LaneNumber := 1,
        DemuxResults := [
          { SampleName := "S1", NumberReads := 10, Yield := 100,
            IndexMetrics := none, ReadMetrics := [] }],
        Undetermined := none },
      { LaneNumber := 2, DemuxResults := [], Undetermined := none }],
    UnknownBarcodes := [{ Lane := 1, Barcodes := [("AACC", 7)] }] }

/-- Counterexample to claim C10.  `c10json` contains a lane (`L2`) with no
`UnknownBarcodes` entry, whose `unknown_barcodes` mapping indeed stays empty
after parsing — yet `split_data_by_lane_and_sample` does not raise
`KeyError("1")`: lane 1 is processed first and its sample raises the
one-argument-`safe_div` `TypeError` before lane 2's undetermined view is
ever built. -/
theorem c10_typeerror_preempts_keyerror :
    (∃ m, parse_file_as_json c10json "f" = Except.ok m ∧
      ∃ lanes, m.lookup ("R") = some lanes ∧
        ∃ ld, lanes.lookup ("L2") = some ld ∧ ld.unknown_barcodes = []) ∧
    (Except.map (fun st => st.2)
      ((parse_file_as_json c10json "f").map split_data_by_lane_and_sample)) =
      Except.ok (some (PyErr.typeError ("safe_div() missing 1 required positional argument: y"))) := by
  exact ⟨⟨_, rfl, _, rfl, _, rfl, rfl⟩, rfl⟩

/-- Claim C10 (corrected).  What does hold: parsing the claim's kind of input
(no `UnknownBarcodes` entry) leaves the lane's `unknown_barcodes` mapping
empty, and whenever the *first processed lane* has an empty
`unknown_barcodes` mapping the fold stores that lane's `bylane` row and then
raises `KeyError("1")` while building the per-lane undetermined-barcode view,
instead of producing a sentinel-padded record.  (When an earlier lane with
samples intervenes, the one-argument `safe_div` `TypeError` preempts the
`KeyError`; either way the fold is total only if every lane has an
`UnknownBarcodes` entry.) -/
theorem c10_amended_first_lane_empty_ub :
    (∃ m, parse_file_as_json c2json "f" = Except.ok m ∧
      ∃ lanes, m.lookup ("RUN1") = some lanes ∧
        ∃ ld, lanes.lookup ("L1") = some ld ∧ ld.unknown_barcodes = []) ∧
    (∀ (runId lane : String) (ld : LaneData)
       (restLanes : List (String × LaneData))
       (restRuns : List (String × List (String × LaneData))),
      ld.unknown_barcodes = [] →
      split_data_by_lane_and_sample ((runId, (lane, ld) :: restLanes) :: restRuns) =
        ({ SplitState.empty with
           bylane := [(prepend_runid runId lane, mkByLaneRow ld)] },
         some (PyErr.keyError "1"))) := by
  constructor
  · exact ⟨_, rfl, _, rfl, _, rfl, rfl⟩
  · intro runId lane ld restLanes restRuns hub
    have h1 : mkUndetRow ld.unknown_barcodes = Except.error (PyErr.keyError "1") := by
      rw [hub]; rfl
    simp only [split_data_by_lane_and_sample, splitRuns, splitLanes, splitLane, h1]
    rfl

/-- A concrete lane record with an empty `unknown_barcodes` mapping. -/
def c10lane : LaneData :=
  { total := 0, total_yield := 0, perfectIndex := 0, samples := [],
    yieldQ30 := 0, qscore_sum := 0, unknown_barcodes := [],
    percent_Q30 := 0, percent_perfectIndex := 0, mean_qscore := 0 }

/-- Witness for C10's amended theorem at a concrete one-run, one-lane
state. -/
theorem c10_amended_first_lane_empty_ub_witness :
    c10lane.unknown_barcodes = [] ∧
    split_data_by_lane_and_sample [("RUN1", [("L1", c10lane)])] =
      ({ SplitState.empty with
         bylane := [(prepend_runid "RUN1" "L1", mkByLaneRow c10lane)] },
       some (PyErr.keyError "1")) :=
  ⟨rfl, c10_amended_first_lane_empty_ub.2 "RUN1" "L1" c10lane [] [] rfl⟩

/-- Claim C1 (code bug).  The claim says the rank lookup, as used by the
taxon-descriptor and lineage parsers, returns the fallback `ROOT` level for
unknown rank names and never raises.  In fact, besides the class body itself
raising `NameError` at import (`alt=cls.ROOT` with `cls` unbound),
`TaxRank.get` returns the member's numeric `.value`, so `parse_taxon`'s
`TaxRank.get(...).value` raises `AttributeError` for the unknown name
`not-a-rank` and equally for the valid name `species`; `TaxRank.get` itself
(granting the intended `ROOT` default) evaluates to the plain numbers `0`
resp. `8`, on which neither `.value` nor `.name` exists. -/
theorem c1_rank_lookup_always_raises :
    parse_taxon ("Thing (id:99; rank:not-a-rank)") =
      Except.error (PyErr.attributeError ("value")) ∧
    parse_taxon ("Homo sapiens (id:9606; rank:species)") =
      Except.error (PyErr.attributeError ("value")) ∧
    TaxRank.get ("NOT_A_RANK") = PyVal.pyNum 0 ∧
    TaxRank.get ("SPECIES") = PyVal.pyNum 8 ∧
    pyAttr (TaxRank.get ("NOT_A_RANK")) ("value") =
      Except.error (PyErr.attributeError ("value")) := by
  refine ⟨?_, ?_, ?_, ?_, ?_⟩ <;> rfl

/-- Claim C5 (confirmed).  `safe_div(x, 0) = 0` for every `x`, and
`safe_div(x, y) = x / y` for every `x` and every `y ≠ 0`. -/
theorem c5_safe_div_spec :
    (∀ x : Rat, safe_div x 0 = 0) ∧
    (∀ x y : Rat, y ≠ 0 → safe_div x y = x / y) := by
  constructor
  · intro x
    simp [safe_div]
  · intro x y hy
    simp [safe_div, hy]

/-- Witness for C5 at concrete inputs. -/
theorem c5_safe_div_spec_witness :
    (7 : Rat) ≠ 2 ∧ safe_div 7 2 = 7 / 2 ∧ safe_div 5 0 = 0 :=
  ⟨by norm_num, c5_safe_div_spec.2 7 2 (by norm_num), c5_safe_div_spec.1 5⟩

/-- A synthetic lineage section: cumulative counts `[10, 10, 40, 70, 100]`
over the ranks root, superkingdom, kingdom, phylum, species (claim C6). -/
def c6content : List String :=
  ["Classified Taxon\x27s Lineage:",
   "Root (id:1; rank:root)\tBacteria (id:2; rank:superkingdom)\tFungi (id:3; rank:kingdom)\tAscomycota (id:4; rank:phylum)\tYeast (id:5; rank:species)",
   "10.0\t10.0\t40.0\t70.0\t100.0",
   "10\t10\t40\t70\t100"]

/-- Claim C6 (code bug).  The delta expression of `extract_lineage` (source
line 565) does map the cumulative sequence `[10, 10, 40, 70, 100]` to
`[10, 0, 30, 30, 30]` as claimed, but `extract_lineage` itself never produces
a delta series: on the synthetic section it raises `AttributeError` inside
`parse_taxon` (the `TaxRank.get(...).value` access) before storing anything. -/
theorem c6_lineage_delta_crash :
    extract_lineage c6content ("Classified Taxon\x27s Lineage") =
      Except.error (PyErr.attributeError ("value")) ∧
    lineageDeltas [10, 10, 40, 70, 100] = [10, 0, 30, 30, 30] := by
  exact ⟨by rfl, by rfl⟩

/-- Claim C4 (code bug).  On input whose lines never start with the section
header, the extractors do not fail with the typed "Could not find" error:
`''.split('\t') == ['']` defeats the length-0 check, so `extract_lineage` and
`extract_kingdom` raise `IndexError` (from `parse_taxon` on the empty column
header) and `extract_t5` raises the `ValueError` of `float('')` instead. -/
theorem c4_missing_header_raises_other_exceptions :
    extract_lineage ["no header here"] ("Classified Taxon\x27s Lineage") =
      Except.error PyErr.indexError ∧
    extract_t5 ["no header here"] ("Top 5 species") TaxRank.SPECIES =
      Except.error (PyErr.valueError ("could not convert string to float: ")) ∧
    extract_kingdom ["no header here"] = Except.error PyErr.indexError := by
  refine ⟨?_, ?_, ?_⟩ <;> rfl

/-- A classification report whose lineage section has two header columns but
a one-column percentage row: the typed column-count `ValueError` of
`extract_lineage` (source lines 557-558) fires on it. -/
def c3badContent : List String :=
  ["Classified Taxon\x27s Lineage:", "a\tb", "1", "2\t3"]

/-- Counterexample to claim C3.  A run over two input files whose first
report is malformed produces no record at all: the per-file loop of
`MultiqcModule.__init__` has no `try`/`except`, so the `ValueError` raised for
the first file propagates and the second file's record is never produced,
contradicting the claim that only the failing file's record is dropped. -/
theorem c3_parse_failure_aborts_run :
    processCfFiles [("s1", c3badContent), ("s2", [])] =
      Except.error (PyErr.valueError
        ("Error: Lineage with header: Classified Taxon\x27s Lineage; has different number of header and value columns.")) := by
  rfl

/-- Claim C3 (corrected).  What does hold: the per-file fold produces a
record list exactly when every file parses; as soon as any file's parse
raises, the whole fold raises and no sibling record (indeed no record at all)
is produced. -/
theorem c3_amended_failure_aborts_all_records
    (files : List (String × List String)) :
    (∃ rs, processCfFiles files = Except.ok rs) ↔
      ∀ f ∈ files, ∃ r, parse_cf_reports f.2 = Except.ok r := by
  induction files with
  | nil => simp [processCfFiles]
  | cons f rest ih =>
    obtain ⟨sn, ct⟩ := f
    constructor
    · rintro ⟨rs, hrs⟩
      rw [processCfFiles] at hrs
      cases hf : parse_cf_reports ct with
      | error e =>
        rw [hf] at hrs
        exact Except.noConfusion hrs
      | ok r =>
        rw [hf] at hrs
        cases hrest : processCfFiles rest with
        | error e =>
          rw [hrest] at hrs
          exact Except.noConfusion hrs
        | ok rs2 =>
          intro g hg
          rcases List.mem_cons.mp hg with hg | hg
          · exact ⟨r, hg ▸ hf⟩
          · exact (ih.mp ⟨rs2, hrest⟩) g hg
    · intro hall
      obtain ⟨r, hr⟩ := hall (sn, ct) (List.mem_cons_self _ rest)
      obtain ⟨rs, hrs⟩ := ih.mpr (fun g hg => hall g (List.mem_cons_of_mem _ hg))
      refine ⟨(sn, r) :: rs, ?_⟩
      rw [processCfFiles, hr, hrs]
      rfl

/-- Witness for C3's amended theorem at the empty file list (for which every
file trivially parses, so the fold succeeds). -/
theorem c3_amended_failure_aborts_all_records_witness :
    ∃ rs, processCfFiles ([] : List (String × List String)) = Except.ok rs :=
  (c3_amended_failure_aborts_all_records []).mpr (by simp)
